import Mathlib

/-!
Verification of the bytebase SQL review rule engine core:
the MSSQL table-naming-convention advisor (Go, backend/plugin/advisor/mssql)
and the SQL review rule conversion functions (TypeScript,
frontend/src/types/sqlReview.ts), embedded shallowly in Lean.
-/

set_option maxRecDepth 4000

deriving instance DecidableEq for Except

/-- SQLReviewRuleLevel, from proto v1 org policy service. -/
inductive SQLReviewRuleLevel where
  | LEVEL_UNSPECIFIED
  | ERROR
  | WARNING
  | DISABLED
deriving DecidableEq

/-- Status of an advisor Finding (advisor.Status in the Go backend). -/
inductive Status where
  | Success
  | Warning
  | Error
deriving DecidableEq

/-- Advice codes used by the naming table advisor (advisor.Ok,
advisor.NamingTableConventionMismatch). -/
inductive AdviceCode where
  | Ok
  | NamingTableConventionMismatch
deriving DecidableEq

/-- advisor.Advice: one Finding of a check. -/
structure Advice where
  status : Status
  code : AdviceCode
  title : String
  content : String
  line : Nat
deriving DecidableEq

/-! ### A small regular expression engine

Models the subset of Go (RE2) regular expressions used by naming rules:
character classes, concatenation, alternation, star. Matching is by
Brzozowski derivatives with simplifying constructors. Go regexp
MatchString reports whether the string CONTAINS a match; anchors are
modelled as explicit flags on the compiled pattern. -/

inductive Regex where
  | fail
  | eps
  | char (c : Char)
  | cls (lo hi : Char)
  | concat (r1 r2 : Regex)
  | alt (r1 r2 : Regex)
  | star (r : Regex)
deriving DecidableEq

/-- Simplifying concatenation: fail absorbs, eps is a unit. -/
def Regex.mkConcat : Regex → Regex → Regex
  | .fail, _ => .fail
  | _, .fail => .fail
  | .eps, r => r
  | r, .eps => r
  | r1, r2 => .concat r1 r2

/-- Simplifying alternation: fail is a unit. -/
def Regex.mkAlt : Regex → Regex → Regex
  | .fail, r => r
  | r, .fail => r
  | r1, r2 => .alt r1 r2

def Regex.nullable : Regex → Bool
  | .fail => false
  | .eps => true
  | .char _ => false
  | .cls _ _ => false
  | .concat r1 r2 => r1.nullable && r2.nullable
  | .alt r1 r2 => r1.nullable || r2.nullable
  | .star _ => true

/-- Brzozowski derivative of a regular expression by one character. -/
def Regex.deriv : Regex → Char → Regex
  | .fail, _ => .fail
  | .eps, _ => .fail
  | .char c, a => if a = c then .eps else .fail
  | .cls lo hi, a => if lo ≤ a ∧ a ≤ hi then .eps else .fail
  | .concat r1 r2, a =>
      if r1.nullable then .mkAlt (.mkConcat (r1.deriv a) r2) (r2.deriv a)
      else .mkConcat (r1.deriv a) r2
  | .alt r1 r2, a => .mkAlt (r1.deriv a) (r2.deriv a)
  | .star r, a => .mkConcat (r.deriv a) (.star r)

/-- Whether the regular expression matches the whole character list. -/
def Regex.rmatch (r : Regex) (cs : List Char) : Bool :=
  (cs.foldl Regex.deriv r).nullable

/-- One or more repetitions. -/
def Regex.rplus (r : Regex) : Regex := .concat r (.star r)

/-- A compiled Go regular expression: the pattern source string, whether it
is anchored at the start and at the end, and the body with anchors
stripped. -/
structure GoRegexp where
  src : String
  anchorStart : Bool
  anchorEnd : Bool
  body : Regex
deriving DecidableEq

/-- Go regexp MatchString semantics: the string contains a match of the
pattern, anchors constraining where the match may start and end. -/
def GoRegexp.matchString (re : GoRegexp) (s : String) : Bool :=
  let cs := s.toList
  let starts := if re.anchorStart then [cs] else (List.range (cs.length + 1)).map (cs.drop ·)
  starts.any fun suf =>
    if re.anchorEnd then re.body.rmatch suf
    else (List.range (suf.length + 1)).any fun k => re.body.rmatch (suf.take k)

/-- The format check as the specification words it: the name must FULLY
match the configured pattern (anchors disregarded, the whole name matched
against the pattern body). Written from the spec for comparison with the
source semantics, which use Go MatchString. -/
def fullMatchString (re : GoRegexp) (s : String) : Bool :=
  re.body.rmatch s.toList

/-- The lowercase letter class, written a to z in the pattern. -/
def lowerCls : Regex := .cls 'a' 'z'

/-- Body of the snake case pattern: one or more lowercase words joined by
underscores. -/
def snakeBody : Regex :=
  .concat (Regex.rplus lowerCls) (.star (.concat (.char '_') (Regex.rplus lowerCls)))

/-- The compiled snake case naming format used by the scenarios. -/
def snakePat : GoRegexp :=
  { src := "^[a-z]+(_[a-z]+)*$", anchorStart := true, anchorEnd := true, body := snakeBody }

/-! ### Go string helpers -/

/-- Number of bytes of one character in UTF-8, as Go counts them. -/
def charUtf8Size (c : Char) : Nat :=
  if c.val ≤ 127 then 1 else if c.val ≤ 2047 then 2 else if c.val ≤ 65535 then 3 else 4

/-- Go len on a string: its UTF-8 byte count. -/
def goLen (s : String) : Int :=
  ((s.toList.map charUtf8Size).sum : Nat)

/-- Go fmt %q of a pattern source string: wrapped in double quotes, quote
and backslash escaped (the only escapes the patterns at hand can need). -/
def goQuote (s : String) : String :=
  let esc := fun (c : Char) =>
    if c = '"' then "\\\"" else if c = '\\' then "\\\\" else String.singleton c
  "\"" ++ String.join (s.toList.map esc) ++ "\""

/-- Content of a format mismatch Finding, as built by fmt.Sprintf in the
advisor. -/
def formatContent (name : String) (re : GoRegexp) : String :=
  name ++ " mismatches table naming convention, naming format should be " ++ goQuote re.src

/-- Content of a length violation Finding, as built by fmt.Sprintf in the
advisor. -/
def lengthContent (name : String) (maxLength : Int) : String :=
  name ++ " mismatches table naming convention, its length should be within "
    ++ toString maxLength ++ " characters"

/-! ### The naming table listener -/

/-- namingTableListener: the walker state of the naming table advisor. -/
structure Listener where
  level : Status
  title : String
  format : GoRegexp
  maxLength : Int
  adviceList : List Advice
deriving DecidableEq

/-- The format mismatch Advice appended by the listener. -/
def fmtAdvice (l : Listener) (name : String) (line : Nat) : Advice :=
  { status := l.level, code := AdviceCode.NamingTableConventionMismatch,
    title := l.title, content := formatContent name l.format, line := line }

/-- The length violation Advice appended by the listener. -/
def lenAdvice (l : Listener) (name : String) (line : Nat) : Advice :=
  { status := l.level, code := AdviceCode.NamingTableConventionMismatch,
    title := l.title, content := lengthContent name l.maxLength, line := line }

/-- EnterCreate_table: reads the declared table name and runs the format
check and the length check, appending one Advice per violated check. -/
def enterCreateTable (l : Listener) (tableName : String) (line : Nat) : Listener :=
  let l1 :=
    if l.format.matchString tableName = false then
      { l with adviceList := l.adviceList ++ [fmtAdvice l tableName line] }
    else l
  if 0 < l1.maxLength ∧ l1.maxLength < goLen tableName then
    { l1 with adviceList := l1.adviceList ++ [lenAdvice l1 tableName line] }
  else l1

/-! ### The tsql parse tree shapes consumed by EnterExecute_body

Each structure mirrors the chain of context accessors the advisor walks:
a missing sub-node (Go nil) is None. -/

/-- Constant context: string holds the STRING token text when the constant
is a string literal, None otherwise. -/
structure ConstantCtx where
  string : Option String

structure ExecuteParameterCtx where
  constant : Option ConstantCtx

structure ExecuteStatementArgUnnamedCtx where
  executeParameter : Option ExecuteParameterCtx

/-- Execute_statement_arg: an unnamed argument plus the child
Execute_statement_arg nodes returned by AllExecute_statement_arg. -/
inductive ExecuteStatementArgCtx where
  | mk (unnamed : Option ExecuteStatementArgUnnamedCtx) (args : List ExecuteStatementArgCtx)

def ExecuteStatementArgCtx.unnamed : ExecuteStatementArgCtx → Option ExecuteStatementArgUnnamedCtx
  | .mk u _ => u

def ExecuteStatementArgCtx.args : ExecuteStatementArgCtx → List ExecuteStatementArgCtx
  | .mk _ a => a

/-- Modelled from the spec: bbparser.NormalizedTSqlTableNamePart lives in
backend/plugin/parser/sql, which is not under src. Resolving a qualified
identifier part either fails (the anomaly is logged and the node skipped)
or yields the normalized name; the identifier node is modelled as carrying
that outcome. -/
abbrev ProcedureId : Type := Except String String

/-- Modelled from the spec: the normalization itself, returning the
outcome carried by the identifier node. -/
def NormalizedTSqlTableNamePart (v : ProcedureId) : Except String String := v

structure FuncProcNameSchemaCtx where
  schema : Option String
  procedure : ProcedureId

structure FuncProcNameDatabaseSchemaCtx where
  funcProcNameSchema : Option FuncProcNameSchemaCtx

structure FuncProcNameServerDatabaseSchemaCtx where
  funcProcNameDatabaseSchema : Option FuncProcNameDatabaseSchemaCtx

structure ExecuteBodyCtx where
  funcProcNameServerDatabaseSchema : Option FuncProcNameServerDatabaseSchemaCtx
  executeStatementArg : Option ExecuteStatementArgCtx

/-- The single quote character. -/
def singleQuote : Char := Char.ofNat 39

/-- Strip one matching pair of surrounding single quote delimiters if
present, as the advisor does with strings.HasPrefix and HasSuffix. On the
one-character input consisting of a lone quote (which the lexer cannot
produce as a STRING token) Go would panic slicing; here it yields the
empty string. -/
def stripOuterQuotes (s : String) : String :=
  let cs := s.toList
  if cs.head? = some singleQuote ∧ cs.getLast? = some singleQuote then
    ((cs.drop 1).dropLast).asString
  else s

/-- The guard chain of EnterExecute_body: returns the stripped new table
name of an sp_rename invocation of the expected shape, and None on any
early return of the source (missing sub-node, schema-qualified name,
normalization failure, a different procedure, wrong argument count, or a
non-string-literal argument). -/
def renameNewTableName (ctx : ExecuteBodyCtx) : Option String :=
  match ctx.funcProcNameServerDatabaseSchema with
  | none => none
  | some s1 =>
    match s1.funcProcNameDatabaseSchema with
    | none => none
    | some s2 =>
      match s2.funcProcNameSchema with
      | none => none
      | some s3 =>
        match s3.schema with
        | some _ => none
        | none =>
          match NormalizedTSqlTableNamePart s3.procedure with
          | .error _ => none
          | .ok normalizedProcedureName =>
            if normalizedProcedureName ≠ "sp_rename" then none
            else
              match ctx.executeStatementArg with
              | none => none
              | some firstArgument =>
                match firstArgument.unnamed with
                | none => none
                | some u1 =>
                  match u1.executeParameter with
                  | none => none
                  | some p1 =>
                    match p1.constant with
                    | none => none
                    | some c1 =>
                      match c1.string with
                      | none => none
                      | some _ =>
                        if firstArgument.args.length ≠ 1 then none
                        else
                          match firstArgument.args[0]? with
                          | none => none
                          | some secondArgument =>
                            match secondArgument.unnamed with
                            | none => none
                            | some u2 =>
                              match u2.executeParameter with
                              | none => none
                              | some p2 =>
                                match p2.constant with
                                | none => none
                                | some c2 =>
                                  match c2.string with
                                  | none => none
                                  | some txt => some (stripOuterQuotes txt)

/-- EnterExecute_body: on an sp_rename invocation of the expected shape,
runs the format check and the length check against the stripped second
(new name) argument; on any other shape it leaves the listener unchanged. -/
def enterExecuteBody (l : Listener) (ctx : ExecuteBodyCtx) (line : Nat) : Listener :=
  match renameNewTableName ctx with
  | none => l
  | some newTableName =>
    let l1 :=
      if l.format.matchString newTableName = false then
        { l with adviceList := l.adviceList ++ [fmtAdvice l newTableName line] }
      else l
    if 0 < l1.maxLength ∧ l1.maxLength < goLen newTableName then
      { l1 with adviceList := l1.adviceList ++ [lenAdvice l1 newTableName line] }
    else l1

/-! ### The parse tree and the walk -/

/-- The parse tree handed to Check, reduced to the node kinds the listener
reacts to: create_table nodes carry the extracted table name, execute_body
nodes carry the accessor chain, every other node only carries children.
The line is the one of the start token of the node. -/
inductive ParseTree where
  | createTable (tableName : String) (line : Nat) (children : List ParseTree)
  | executeBody (ctx : ExecuteBodyCtx) (line : Nat) (children : List ParseTree)
  | other (children : List ParseTree)

mutual

/-- antlr ParseTreeWalkerDefault.Walk: depth first, enter rules fire in
preorder. -/
def walkTree (l : Listener) : ParseTree → Listener
  | .createTable name line children => walkList (enterCreateTable l name line) children
  | .executeBody ctx line children => walkList (enterExecuteBody l ctx line) children
  | .other children => walkList l children

def walkList (l : Listener) : List ParseTree → Listener
  | [] => l
  | t :: ts => walkList (walkTree l t) ts

end

/-- The Advice returned when no violation was recorded. -/
def okAdvice : Advice :=
  { status := .Success, code := .Ok, title := "OK", content := "", line := 0 }

/-- generateAdvice: the advices produced by the listener, defaulting to the
single Success Advice; never empty. The source returns a nil error
unconditionally. -/
def generateAdvice (l : Listener) : List Advice :=
  if l.adviceList.isEmpty then [okAdvice] else l.adviceList

/-- Modelled from the spec: advisor.NewStatusBySQLReviewRuleLevel lives in
backend/plugin/advisor, which is not under src. It maps the resolved rule
level ERROR to Error and WARNING to Warning and fails on any other level
(an unrecognized rule level is a configuration error). -/
def NewStatusBySQLReviewRuleLevel : SQLReviewRuleLevel → Except String Status
  | .ERROR => .ok .Error
  | .WARNING => .ok .Warning
  | _ => .error "unexpected rule level type"

/-- Modelled from the spec: the stored naming rule payload consumed by
advisor.UnmarshalNamingRulePayloadAsRegexp (not under src), carried
together with its parse outcome: either the compiled format regexp and
the max length, or a malformed payload or invalid regular expression
format string. -/
inductive NamingRulePayload where
  | valid (format : GoRegexp) (maxLength : Int)
  | invalid (msg : String)
deriving DecidableEq

/-- Modelled from the spec: advisor.UnmarshalNamingRulePayloadAsRegexp
(not under src) parses the payload into the compiled format regexp and
the max length, surfacing malformed payloads and invalid regular
expression format strings as errors. -/
def UnmarshalNamingRulePayloadAsRegexp : NamingRulePayload → Except String (GoRegexp × Int)
  | .valid format maxLength => .ok (format, maxLength)
  | .invalid msg => .error msg

/-- The resolved rule carried by the advisor context: type, level and
stored payload. -/
structure SQLReviewRule where
  type : String
  level : SQLReviewRuleLevel
  payload : NamingRulePayload
deriving DecidableEq

/-- ctx.AST with the Go type assertion: either an antlr tree or not. -/
inductive AST where
  | tree (t : ParseTree)
  | notTree

/-- NamingTableAdvisor.Check: converts the AST, resolves the level and the
payload, walks the tree with the naming table listener and returns the
generated advice. -/
def Check (ast : AST) (rule : SQLReviewRule) : Except String (List Advice) :=
  match ast with
  | .notTree => .error "failed to convert to Tree"
  | .tree tree =>
    match NewStatusBySQLReviewRuleLevel rule.level with
    | .error e => .error e
    | .ok level =>
      match UnmarshalNamingRulePayloadAsRegexp rule.payload with
      | .error e => .error e
      | .ok (format, maxLength) =>
        .ok (generateAdvice (walkTree
          { level := level, title := rule.type, format := format,
            maxLength := maxLength, adviceList := [] } tree))

/-! ### Canonical execute_body shapes used by the scenarios -/

/-- A string literal argument node: the full unnamed parameter chain down
to a STRING token with the given text. -/
def strLiteralArgUnnamed (text : String) : ExecuteStatementArgUnnamedCtx :=
  { executeParameter := some { constant := some { string := some text } } }

/-- The unqualified sp_rename procedure name chain. -/
def spRenameNameCtx : FuncProcNameServerDatabaseSchemaCtx :=
  { funcProcNameDatabaseSchema :=
      some { funcProcNameSchema := some { schema := none, procedure := Except.ok "sp_rename" } } }

/-- An sp_rename invocation with exactly two positional string literal
arguments: the first argument node has one child argument node. -/
def mkRenameCtx (oldText newText : String) : ExecuteBodyCtx :=
  { funcProcNameServerDatabaseSchema := some spRenameNameCtx,
    executeStatementArg :=
      some (.mk (some (strLiteralArgUnnamed oldText))
        [.mk (some (strLiteralArgUnnamed newText)) []]) }

/-- An sp_rename invocation with three positional string literal
arguments. The external tsql parser (bytebase tsql-parser, outside this
repository) determines how the argument nodes nest; each additional
positional argument is modelled as one more child argument node, so
AllExecute_statement_arg of the first argument has length two here. -/
def mkRename3Ctx (a b c : String) : ExecuteBodyCtx :=
  { funcProcNameServerDatabaseSchema := some spRenameNameCtx,
    executeStatementArg :=
      some (.mk (some (strLiteralArgUnnamed a))
        [.mk (some (strLiteralArgUnnamed b)) [], .mk (some (strLiteralArgUnnamed c)) []]) }

/-! ### Shared concrete rules and listeners for the scenarios -/

/-- A resolved naming.table rule at WARNING level, snake case format, no
length limit. -/
def snakeRule0 : SQLReviewRule :=
  { type := "naming.table", level := .WARNING, payload := .valid snakePat 0 }

/-- The fresh listener Check builds for snakeRule0. -/
def snakeListener0 : Listener :=
  { level := .Warning, title := "naming.table", format := snakePat, maxLength := 0,
    adviceList := [] }

/-- The old name string literal of scenario C, quotes included. -/
def qOldTable : String :=
  String.singleton singleQuote ++ "dbo.Old_Table" ++ String.singleton singleQuote

/-- The new name string literal of scenario C, quotes included. -/
def qNewTable : String :=
  String.singleton singleQuote ++ "NewTable" ++ String.singleton singleQuote

/-- A helper equation: the length violation Advice does not depend on the
accumulated advice list. -/
theorem lenAdvice_set_advice (l : Listener) (x : List Advice) (name : String) (line : Nat) :
    lenAdvice { l with adviceList := x } name line = lenAdvice l name line := rfl

/-- A helper equation: generateAdvice never returns the empty list. -/
theorem generateAdvice_ne_nil (l : Listener) : generateAdvice l ≠ [] := by
  unfold generateAdvice
  split
  · simp
  · next h => simp_all

/-- C1: For every tree and resolved rule accepted by the naming table
Advisor, Check returns either an error, or a non-empty Finding list; when
no violation was recorded during the walk, the returned list is exactly
one Finding with status Success, code OK (title OK), and empty content. -/
theorem check_returns_error_or_nonempty (ast : AST) (rule : SQLReviewRule) :
    (∀ advs, Check ast rule = .ok advs → advs ≠ []) ∧
    (∀ (t : ParseTree) (level : Status) (format : GoRegexp) (maxLength : Int),
      ast = .tree t →
      NewStatusBySQLReviewRuleLevel rule.level = .ok level →
      UnmarshalNamingRulePayloadAsRegexp rule.payload = .ok (format, maxLength) →
      (walkTree { level := level, title := rule.type, format := format,
                  maxLength := maxLength, adviceList := [] } t).adviceList = [] →
      Check ast rule = .ok [okAdvice]) := by
  constructor
  · intro advs h
    unfold Check at h
    cases ast with
    | notTree => simp at h
    | tree t =>
      cases hs : NewStatusBySQLReviewRuleLevel rule.level with
      | error e => rw [hs] at h; simp at h
      | ok level =>
        cases hu : UnmarshalNamingRulePayloadAsRegexp rule.payload with
        | error e => rw [hs, hu] at h; simp at h
        | ok p =>
          obtain ⟨format, maxLength⟩ := p
          rw [hs, hu] at h
          simp only [Except.ok.injEq] at h
          rw [← h]
          exact generateAdvice_ne_nil _
  · intro t level format maxLength hast hs hu hempty
    subst hast
    unfold Check
    rw [hs, hu]
    simp [generateAdvice, hempty]

/-- C1 witness: a concrete accepted tree and rule on which the walk records
nothing and Check returns exactly the single Success Finding. -/
theorem check_returns_error_or_nonempty_witness :
    NewStatusBySQLReviewRuleLevel snakeRule0.level = .ok Status.Warning ∧
    (walkTree snakeListener0 (.other [])).adviceList = [] ∧
    Check (.tree (.other [])) snakeRule0 = .ok [okAdvice] :=
  ⟨by decide, by decide,
    (check_returns_error_or_nonempty (.tree (.other [])) snakeRule0).2 (.other [])
      Status.Warning snakePat 0 rfl (by decide) (by decide) (by decide)⟩

/-- C8: Check is deterministic: two runs on identical inputs return
identical Finding lists. -/
theorem check_deterministic (ast1 ast2 : AST) (rule1 rule2 : SQLReviewRule)
    (hast : ast1 = ast2) (hrule : rule1 = rule2) :
    Check ast1 rule1 = Check ast2 rule2 := by
  rw [hast, hrule]

/-- C8 witness: two runs of Check on a concrete identical input agree. -/
theorem check_deterministic_witness :
    Check (.tree (.createTable "UserOrders" 1 [])) snakeRule0 =
      Check (.tree (.createTable "UserOrders" 1 [])) snakeRule0 :=
  check_deterministic _ _ _ _ rfl rfl

/-- The unanchored lowercase pattern, source text a to z plus. -/
def unanchoredLowerPat : GoRegexp :=
  { src := "[a-z]+", anchorStart := false, anchorEnd := false, body := Regex.rplus lowerCls }

/-- A listener configured with the unanchored lowercase pattern. -/
def unanchoredListener : Listener :=
  { level := .Warning, title := "naming.table", format := unanchoredLowerPat,
    maxLength := 0, adviceList := [] }

/-- C4 counterexample: with the configured pattern a to z plus (no
anchors) the name Ab does not fully match the pattern, yet the format
check appends no Finding, because Go MatchString only asks for a match
somewhere inside the name. -/
theorem create_table_full_match_cex :
    fullMatchString unanchoredLowerPat "Ab" = false ∧
    unanchoredLowerPat.matchString "Ab" = true ∧
    enterCreateTable unanchoredListener "Ab" 1 = unanchoredListener :=
  ⟨by decide, by decide, by decide⟩

/-- C4 amended: the format check requires the name to match the configured
pattern under Go MatchString semantics (a match anywhere in the name, a
full match exactly when the pattern is anchored); on mismatch exactly one
Finding is added, at the configured level, with the format mismatch
content; in scenario A the anchored snake case format with maxLength 0 on
table UserOrders yields exactly one such Finding naming UserOrders. -/
theorem create_table_format_check :
    (∀ (l : Listener) (name : String) (line : Nat),
      l.format.matchString name = false →
      ¬(0 < l.maxLength ∧ l.maxLength < goLen name) →
      enterCreateTable l name line =
        { l with adviceList := l.adviceList ++ [fmtAdvice l name line] }) ∧
    Check (.tree (.createTable "UserOrders" 1 [])) snakeRule0 =
      .ok [{ status := .Warning, code := .NamingTableConventionMismatch,
             title := "naming.table", content := formatContent "UserOrders" snakePat,
             line := 1 }] := by
  constructor
  · intro l name line hf hl
    simp only [enterCreateTable, hf]
    simp [hl]
  · decide

/-- C4 witness: scenario A through the single node handler. -/
theorem create_table_format_check_witness :
    snakePat.matchString "UserOrders" = false ∧
    enterCreateTable snakeListener0 "UserOrders" 1 =
      { snakeListener0 with
        adviceList := snakeListener0.adviceList ++ [fmtAdvice snakeListener0 "UserOrders" 1] } :=
  ⟨by decide, create_table_format_check.1 snakeListener0 "UserOrders" 1 (by decide) (by decide)⟩

/-- The listener of scenario B: snake case format, max length five. -/
def snakeListener5 : Listener :=
  { level := .Warning, title := "naming.table", format := snakePat, maxLength := 5,
    adviceList := [] }

/-- C5: the length check fires exactly when the configured maximum length
is positive and the Go length of the name exceeds it, appending the length
violation Finding; it is independent of the format check, so a name that
matches the format yields at most the one length Finding and never a
format Finding; in scenario B the snake case format with maxLength 5 on
table orders_history yields exactly the one length violation Finding. -/
theorem create_table_length_check :
    (∀ (l : Listener) (name : String) (line : Nat),
      l.format.matchString name = true →
      enterCreateTable l name line =
        (if 0 < l.maxLength ∧ l.maxLength < goLen name then
          { l with adviceList := l.adviceList ++ [lenAdvice l name line] }
        else l)) ∧
    Check (.tree (.createTable "orders_history" 1 []))
        { type := "naming.table", level := .WARNING, payload := .valid snakePat 5 } =
      .ok [{ status := .Warning, code := .NamingTableConventionMismatch,
             title := "naming.table", content := lengthContent "orders_history" 5,
             line := 1 }] := by
  constructor
  · intro l name line hf
    simp [enterCreateTable, hf]
  · decide

/-- C5 witness: scenario B through the single node handler. -/
theorem create_table_length_check_witness :
    snakePat.matchString "orders_history" = true ∧
    enterCreateTable snakeListener5 "orders_history" 1 =
      (if 0 < snakeListener5.maxLength ∧ snakeListener5.maxLength < goLen "orders_history" then
        { snakeListener5 with
          adviceList := snakeListener5.adviceList ++ [lenAdvice snakeListener5 "orders_history" 1] }
      else snakeListener5) :=
  ⟨by decide, create_table_length_check.1 snakeListener5 "orders_history" 1 (by decide)⟩

/-- C9: when one table name violates both checks, exactly two Findings are
appended, the format mismatch Finding first and the length violation
Finding second, both with code NamingTableConventionMismatch and both with
the start line of the triggering statement; the same holds on the rename
path for the extracted new table name. -/
theorem create_table_both_checks (l : Listener) (name : String) (line : Nat)
    (hf : l.format.matchString name = false)
    (hl : 0 < l.maxLength ∧ l.maxLength < goLen name) :
    (enterCreateTable l name line).adviceList =
      l.adviceList ++ [fmtAdvice l name line, lenAdvice l name line] ∧
    (∀ ctx : ExecuteBodyCtx, renameNewTableName ctx = some name →
      (enterExecuteBody l ctx line).adviceList =
        l.adviceList ++ [fmtAdvice l name line, lenAdvice l name line]) ∧
    (fmtAdvice l name line).code = AdviceCode.NamingTableConventionMismatch ∧
    (lenAdvice l name line).code = AdviceCode.NamingTableConventionMismatch ∧
    (fmtAdvice l name line).line = line ∧
    (lenAdvice l name line).line = line := by
  refine ⟨?_, ?_, rfl, rfl, rfl, rfl⟩
  · simp only [enterCreateTable, hf]
    simp [hl, lenAdvice_set_advice]
  · intro ctx hctx
    simp only [enterExecuteBody, hctx, hf]
    simp [hl, lenAdvice_set_advice]

/-- The listener of the C9 witness: snake case format, max length three. -/
def snakeListener3 : Listener :=
  { level := .Error, title := "naming.table", format := snakePat, maxLength := 3,
    adviceList := [] }

/-- C9 witness: a concrete name violating both checks yields the two
Findings in order. -/
theorem create_table_both_checks_witness :
    (snakePat.matchString "BadTooLong" = false ∧
      (0 : Int) < snakeListener3.maxLength ∧ snakeListener3.maxLength < goLen "BadTooLong") ∧
    (enterCreateTable snakeListener3 "BadTooLong" 2).adviceList =
      snakeListener3.adviceList ++
        [fmtAdvice snakeListener3 "BadTooLong" 2, lenAdvice snakeListener3 "BadTooLong" 2] :=
  ⟨⟨by decide, by decide, by decide⟩,
    (create_table_both_checks snakeListener3 "BadTooLong" 2 (by decide) (by decide)).1⟩

/-- C6: for a rename invocation with exactly two positional string literal
arguments, the advisor extracts the second (new name) argument with one
pair of surrounding quotes stripped; the first (old name) argument is
never checked, the result being independent of its text; in scenario C
only NewTable is reported. -/
theorem rename_checks_second_argument :
    (∀ oldText newText : String,
      renameNewTableName (mkRenameCtx oldText newText) = some (stripOuterQuotes newText)) ∧
    (∀ (l : Listener) (line : Nat) (oldA oldB newText : String),
      enterExecuteBody l (mkRenameCtx oldA newText) line =
        enterExecuteBody l (mkRenameCtx oldB newText) line) ∧
    Check (.tree (.executeBody (mkRenameCtx qOldTable qNewTable) 1 [])) snakeRule0 =
      .ok [{ status := .Warning, code := .NamingTableConventionMismatch,
             title := "naming.table", content := formatContent "NewTable" snakePat,
             line := 1 }] := by
  have hfst : ∀ oldText newText : String,
      renameNewTableName (mkRenameCtx oldText newText) = some (stripOuterQuotes newText) :=
    fun _ _ => rfl
  refine ⟨hfst, ?_, by decide⟩
  intro l line oldA oldB newText
  unfold enterExecuteBody
  rw [hfst, hfst]

/-- An invocation whose procedure name is schema qualified. -/
def schemaQualifiedCtx (sch : String) (p : ProcedureId)
    (arg : Option ExecuteStatementArgCtx) : ExecuteBodyCtx :=
  { funcProcNameServerDatabaseSchema :=
      some ⟨some ⟨some ⟨some sch, p⟩⟩⟩,
    executeStatementArg := arg }

/-- An invocation whose procedure name fails to normalize. -/
def normalizeFailCtx (e : String) (arg : Option ExecuteStatementArgCtx) : ExecuteBodyCtx :=
  { funcProcNameServerDatabaseSchema :=
      some ⟨some ⟨some ⟨none, Except.error e⟩⟩⟩,
    executeStatementArg := arg }

/-- C7: if an invocation node does not match the expected rename shape, or
normalizing the procedure name fails, the advisor adds no Finding for that
node and returns no error; a rename call with three positional arguments
yields zero naming Findings and the overall result is the single Success
Finding. -/
theorem rename_shape_tolerance :
    (∀ (l : Listener) (ctx : ExecuteBodyCtx) (line : Nat),
      renameNewTableName ctx = none → enterExecuteBody l ctx line = l) ∧
    (∀ a b c : String, renameNewTableName (mkRename3Ctx a b c) = none) ∧
    (∀ (sch : String) (p : ProcedureId) (arg : Option ExecuteStatementArgCtx),
      renameNewTableName (schemaQualifiedCtx sch p arg) = none) ∧
    (∀ (e : String) (arg : Option ExecuteStatementArgCtx),
      renameNewTableName (normalizeFailCtx e arg) = none) ∧
    Check (.tree (.executeBody (mkRename3Ctx qOldTable qNewTable qNewTable) 1 [])) snakeRule0 =
      .ok [okAdvice] := by
  refine ⟨?_, fun a b c => rfl, fun sch p arg => rfl, fun e arg => rfl, by decide⟩
  intro l ctx line h
  unfold enterExecuteBody
  rw [h]

/-- C7 witness: a concrete three argument rename call is skipped without a
Finding. -/
theorem rename_shape_tolerance_witness :
    renameNewTableName (mkRename3Ctx "a" "b" "c") = none ∧
    enterExecuteBody snakeListener0 (mkRename3Ctx "a" "b" "c") 1 = snakeListener0 :=
  ⟨rfl, rename_shape_tolerance.1 snakeListener0 (mkRename3Ctx "a" "b" "c") 1 rfl⟩

/-! ### The SQL review rule configuration schema and conversions

Model of frontend/src/types/sqlReview.ts. Stored payloads and component
payloads are javascript objects; field reads of absent properties give
undefined, modelled by the JsValue undef variant. -/

/-- The engine enum from proto v1 common, reduced to the variants the
scenarios need plus a default. -/
inductive Engine where
  | ENGINE_UNSPECIFIED
  | MSSQL
  | MYSQL
  | POSTGRES
deriving DecidableEq

/-- The declared kind of a rule configuration component payload. -/
inductive CompType where
  | NUMBER
  | STRING
  | BOOLEAN
  | STRING_ARRAY
  | TEMPLATE
deriving DecidableEq

/-- A javascript value as the conversion functions handle them: numbers,
strings, booleans, string arrays, or undefined for an absent property. -/
inductive JsValue where
  | undef
  | num (n : Int)
  | str (s : String)
  | bool (b : Bool)
  | strArr (l : List String)
deriving DecidableEq

/-- The javascript nullish coalescing operator on these values. -/
def jsCoalesce (a b : JsValue) : JsValue :=
  match a with
  | .undef => b
  | v => v

/-- Javascript falsiness of these values: undefined, false, zero and the
empty string are falsy; every array is truthy. -/
def jsFalsy : JsValue → Bool
  | .undef => true
  | .bool b => !b
  | .num n => n == 0
  | .str s => s == ""
  | .strArr _ => false

/-- The payload of one rule configuration component: its declared kind,
default, template list (TEMPLATE kind only) and current value. -/
structure ComponentPayload where
  ctype : CompType
  default : JsValue
  templateList : List String := []
  value : JsValue := .undef
deriving DecidableEq

/-- RuleConfigComponent: one typed, named parameter slot. -/
structure RuleConfigComponent where
  key : String
  payload : ComponentPayload
deriving DecidableEq

/-- A stored rule payload object: the union of the properties any of the
payload variants can carry, absent properties being undefined. -/
structure PayloadObject where
  format : JsValue := .undef
  maxLength : JsValue := .undef
  list : JsValue := .undef
  columnList : JsValue := .undef
  required : JsValue := .undef
  number : JsValue := .undef
  string : JsValue := .undef
  upper : JsValue := .undef
deriving DecidableEq

/-- SchemaPolicyRule: the stored rule configuration. -/
structure SchemaPolicyRule where
  type : String
  level : SQLReviewRuleLevel
  engine : Engine
  payload : Option PayloadObject := none
  comment : String
deriving DecidableEq

/-- RuleTemplateV2: the UI facing rule template. -/
structure RuleTemplateV2 where
  type : String
  category : String
  engine : Engine
  level : SQLReviewRuleLevel
  componentList : List RuleConfigComponent
  comment : Option String := none
deriving DecidableEq

/-- The case groups of the conversion switch in sqlReview.ts, one variant
per group of case labels sharing a body. -/
inductive RuleCase where
  | strPlan
  | strNaming
  | strNum
  | tmplOnly
  | tmplNum
  | boolCase
  | colRequired
  | strArr
  | boolNum
  | numOnly
  | unknown
deriving DecidableEq

/-- The dispatch of the conversion switch: maps each rule type to its case
group, everything else falling through to unknown. -/
def ruleCaseOf : String → RuleCase
  | "statement.query.minimum-plan-level" => .strPlan
  | "table.drop-naming-convention" => .strNaming
  | "naming.column" | "naming.column.auto-increment" | "naming.table" => .strNum
  | "naming.index.pk" => .tmplOnly
  | "naming.index.idx" | "naming.index.uk" | "naming.index.fk" => .tmplNum
  | "naming.identifier.case" => .boolCase
  | "column.required" => .colRequired
  | "column.type-disallow-list" | "index.primary-key-type-allowlist"
  | "index.type-allow-list" | "system.charset.allowlist"
  | "system.collation.allowlist" | "system.function.disallowed-list"
  | "table.disallow-dml" | "table.disallow-ddl" => .strArr
  | "column.comment" | "table.comment" => .boolNum
  | "statement.insert.row-limit" | "statement.affected-row-limit"
  | "column.maximum-character-length" | "column.maximum-varchar-length"
  | "column.auto-increment-initial-value" | "index.key-number-limit"
  | "index.total-number-limit" | "system.comment.length"
  | "advice.online-migration" | "table.text-fields-total-length"
  | "table.limit-size" | "statement.where.maximum-logical-operator-count"
  | "statement.maximum-limit-value" | "statement.maximum-join-table-count"
  | "statement.maximum-statements-in-transaction" => .numOnly
  | _ => .unknown

/-- The spread and set of a component value: keeps key, kind, default and
template list, replaces the current value. -/
def setValue (c : RuleConfigComponent) (v : JsValue) : RuleConfigComponent :=
  { c with payload := { c.payload with value := v } }

/-- convertPolicyRuleToRuleTemplate: converts a stored policy rule to a
rule template, overlaying the payload values onto the matching components
of the template; throws on a rule type the switch does not handle and on a
missing required component. -/
def convertPolicyRuleToRuleTemplate (policyRule : SchemaPolicyRule)
    (ruleTemplate : RuleTemplateV2) : Except String RuleTemplateV2 :=
  if policyRule.type ≠ ruleTemplate.type then
    .error ("The rule type is not same. policyRule:" ++ ruleTemplate.type
      ++ ", ruleTemplate:" ++ ruleTemplate.type)
  else
    let res : RuleTemplateV2 :=
      { ruleTemplate with
        engine := policyRule.engine,
        level := policyRule.level,
        comment := some policyRule.comment }
    let componentList := ruleTemplate.componentList
    if componentList.isEmpty then .ok res
    else
      let payload := policyRule.payload.getD {}
      let stringComponent := componentList.find? (fun c => c.payload.ctype == CompType.STRING)
      let numberComponent := componentList.find? (fun c => c.payload.ctype == CompType.NUMBER)
      let booleanComponent := componentList.find? (fun c => c.payload.ctype == CompType.BOOLEAN)
      let templateComponent := componentList.find? (fun c => c.payload.ctype == CompType.TEMPLATE)
      let stringArrayComponent :=
        componentList.find? (fun c => c.payload.ctype == CompType.STRING_ARRAY)
      match ruleCaseOf ruleTemplate.type with
      | .strPlan =>
        match stringComponent with
        | none => .error ("Invalid rule " ++ ruleTemplate.type)
        | some sc => .ok { res with componentList := [setValue sc payload.string] }
      | .strNaming =>
        match stringComponent with
        | none => .error ("Invalid rule " ++ ruleTemplate.type)
        | some sc => .ok { res with componentList := [setValue sc payload.format] }
      | .strNum =>
        match stringComponent, numberComponent with
        | some sc, some nc =>
          .ok { res with componentList := [setValue sc payload.format, setValue nc payload.maxLength] }
        | _, _ => .error ("Invalid rule " ++ ruleTemplate.type)
      | .tmplOnly =>
        match templateComponent with
        | none => .error ("Invalid rule " ++ ruleTemplate.type)
        | some tc => .ok { res with componentList := [setValue tc payload.format] }
      | .tmplNum =>
        match templateComponent, numberComponent with
        | some tc, some nc =>
          .ok { res with componentList := [setValue tc payload.format, setValue nc payload.maxLength] }
        | _, _ => .error ("Invalid rule " ++ ruleTemplate.type)
      | .boolCase =>
        match booleanComponent with
        | none => .error ("Invalid rule " ++ ruleTemplate.type)
        | some bc => .ok { res with componentList := [bc] }
      | .colRequired =>
        match componentList with
        | [] => .error ("Invalid rule " ++ ruleTemplate.type)
        | requiredColumnComponent :: _ =>
          let value := if jsFalsy payload.columnList then payload.list else payload.columnList
          .ok { res with componentList := [setValue requiredColumnComponent value] }
      | .strArr =>
        match stringArrayComponent with
        | none => .error ("Invalid rule " ++ ruleTemplate.type)
        | some sac => .ok { res with componentList := [setValue sac payload.list] }
      | .boolNum =>
        match booleanComponent, numberComponent with
        | some bc, some nc =>
          .ok { res with componentList := [setValue bc payload.required, setValue nc payload.maxLength] }
        | _, _ => .error ("Invalid rule " ++ ruleTemplate.type)
      | .numOnly =>
        match numberComponent with
        | none => .error ("Invalid rule " ++ ruleTemplate.type)
        | some nc => .ok { res with componentList := [setValue nc payload.number] }
      | .unknown => .error ("Invalid rule " ++ ruleTemplate.type)

/-- mergeIndividualConfigAsRule: reads the current or default values of the
template components and reassembles the stored payload; throws on a rule
type the switch does not handle and on a missing required component. -/
def mergeIndividualConfigAsRule (base : SchemaPolicyRule)
    (template : RuleTemplateV2) : Except String SchemaPolicyRule :=
  let componentList := template.componentList
  let stringPayload :=
    (componentList.find? (fun c => c.payload.ctype == CompType.STRING)).map (·.payload)
  let numberPayload :=
    (componentList.find? (fun c => c.payload.ctype == CompType.NUMBER)).map (·.payload)
  let templatePayload :=
    (componentList.find? (fun c => c.payload.ctype == CompType.TEMPLATE)).map (·.payload)
  let booleanPayload :=
    (componentList.find? (fun c => c.payload.ctype == CompType.BOOLEAN)).map (·.payload)
  let stringArrayPayload :=
    (componentList.find? (fun c => c.payload.ctype == CompType.STRING_ARRAY)).map (·.payload)
  match ruleCaseOf template.type with
  | .strPlan =>
    match stringPayload with
    | none => .error ("Invalid rule " ++ template.type)
    | some sp =>
      .ok { base with payload := some { string := jsCoalesce sp.value sp.default } }
  | .strNaming =>
    match stringPayload with
    | none => .error ("Invalid rule " ++ template.type)
    | some sp =>
      .ok { base with payload := some { format := jsCoalesce sp.value sp.default } }
  | .strNum =>
    match stringPayload, numberPayload with
    | some sp, some np =>
      .ok { base with payload := some { format := jsCoalesce sp.value sp.default,
                                        maxLength := jsCoalesce np.value np.default } }
    | _, _ => .error ("Invalid rule " ++ template.type)
  | .tmplOnly =>
    match templatePayload with
    | none => .error ("Invalid rule " ++ template.type)
    | some tp =>
      .ok { base with payload := some { format := jsCoalesce tp.value tp.default } }
  | .tmplNum =>
    match templatePayload, numberPayload with
    | some tp, some np =>
      .ok { base with payload := some { format := jsCoalesce tp.value tp.default,
                                        maxLength := jsCoalesce np.value np.default } }
    | _, _ => .error ("Invalid rule " ++ template.type)
  | .boolCase =>
    match booleanPayload with
    | none => .error ("Invalid rule " ++ template.type)
    | some bp =>
      .ok { base with payload := some { upper := jsCoalesce bp.value bp.default } }
  | .colRequired | .strArr =>
    match stringArrayPayload with
    | none => .error ("Invalid rule " ++ template.type)
    | some sap =>
      .ok { base with payload := some { list := jsCoalesce sap.value sap.default } }
  | .boolNum =>
    match booleanPayload, numberPayload with
    | some bp, some np =>
      .ok { base with payload := some { required := jsCoalesce bp.value bp.default,
                                        maxLength := jsCoalesce np.value np.default } }
    | _, _ => .error ("Invalid rule " ++ template.type)
  | .numOnly =>
    match numberPayload with
    | none => .error ("Invalid rule " ++ template.type)
    | some np =>
      .ok { base with payload := some { number := jsCoalesce np.value np.default } }
  | .unknown => .error ("Invalid rule " ++ template.type)

/-- convertRuleTemplateToPolicyRule: converts a rule template back to the
stored policy rule. -/
def convertRuleTemplateToPolicyRule (rule : RuleTemplateV2) : Except String SchemaPolicyRule :=
  let base : SchemaPolicyRule :=
    { type := rule.type, level := rule.level, engine := rule.engine,
      payload := none, comment := rule.comment.getD "" }
  if rule.componentList.isEmpty then .ok base
  else mergeIndividualConfigAsRule base rule

/-- The composition the round trip property is about: store to template to
store. -/
def roundTrip (r : SchemaPolicyRule) (t : RuleTemplateV2) : Except String SchemaPolicyRule :=
  match convertPolicyRuleToRuleTemplate r t with
  | .error e => .error e
  | .ok tmpl => convertRuleTemplateToPolicyRule tmpl

/-- A helper equation: a nonempty list has isEmpty false. -/
theorem isEmpty_false_of_ne_nil {α : Type} {l : List α} (h : l ≠ []) : l.isEmpty = false := by
  cases l with
  | nil => exact absurd rfl h
  | cons a as => rfl

/-- C10: for column.required, convertPolicyRuleToRuleTemplate first reads
the deprecated stored key columnList and only falls back to the declared
list field when columnList is absent, and it reads the first component of
the componentList without verifying its kind is STRING_ARRAY, succeeding
for a first component of any kind. -/
theorem column_required_legacy_payload :
    (∀ (pr : SchemaPolicyRule) (t : RuleTemplateV2) (p : PayloadObject)
       (cols : List String) (c0 : RuleConfigComponent) (rest : List RuleConfigComponent),
      pr.type = "column.required" → t.type = "column.required" →
      pr.payload = some p → p.columnList = .strArr cols →
      t.componentList = c0 :: rest →
      convertPolicyRuleToRuleTemplate pr t =
        .ok { t with
              engine := pr.engine,
              level := pr.level,
              comment := some pr.comment,
              componentList := [setValue c0 (.strArr cols)] }) ∧
    (∀ (pr : SchemaPolicyRule) (t : RuleTemplateV2) (p : PayloadObject)
       (c0 : RuleConfigComponent) (rest : List RuleConfigComponent),
      pr.type = "column.required" → t.type = "column.required" →
      pr.payload = some p → p.columnList = .undef →
      t.componentList = c0 :: rest →
      convertPolicyRuleToRuleTemplate pr t =
        .ok { t with
              engine := pr.engine,
              level := pr.level,
              comment := some pr.comment,
              componentList := [setValue c0 p.list] }) := by
  have hcase : ruleCaseOf "column.required" = RuleCase.colRequired := rfl
  constructor
  · intro pr t p cols c0 rest hpr ht hp hcl hcomp
    simp [convertPolicyRuleToRuleTemplate, hpr, ht, hp, hcl, hcomp, hcase, jsFalsy]
  · intro pr t p c0 rest hpr ht hp hcl hcomp
    simp [convertPolicyRuleToRuleTemplate, hpr, ht, hp, hcl, hcomp, hcase, jsFalsy]

/-- The column.required stored rule of the C10 witness, carrying the
deprecated columnList key. -/
def colReqRule : SchemaPolicyRule :=
  { type := "column.required", level := .WARNING, engine := .MYSQL,
    payload := some { columnList := .strArr ["id", "created_at"], list := .strArr ["id"] },
    comment := "" }

/-- The column.required template of the C10 witness, whose first component
kind is NUMBER, not STRING_ARRAY. -/
def colReqTemplate : RuleTemplateV2 :=
  { type := "column.required", category := "COLUMN", engine := .MYSQL, level := .ERROR,
    componentList := [{ key := "columnList", payload := { ctype := .NUMBER, default := .num 7 } }] }

/-- C10 witness: the deprecated columnList wins over list, and the first
component is used although its kind is NUMBER. -/
theorem column_required_legacy_payload_witness :
    colReqRule.payload = some { columnList := .strArr ["id", "created_at"], list := .strArr ["id"] } ∧
    convertPolicyRuleToRuleTemplate colReqRule colReqTemplate =
      .ok { colReqTemplate with
            engine := colReqRule.engine,
            level := colReqRule.level,
            comment := some colReqRule.comment,
            componentList :=
              [setValue { key := "columnList", payload := { ctype := .NUMBER, default := .num 7 } }
                (.strArr ["id", "created_at"])] } :=
  ⟨rfl,
    column_required_legacy_payload.1 colReqRule colReqTemplate
      { columnList := .strArr ["id", "created_at"], list := .strArr ["id"] }
      ["id", "created_at"]
      { key := "columnList", payload := { ctype := .NUMBER, default := .num 7 } } []
      rfl rfl rfl rfl rfl⟩

/-- The conditions under which convertPolicyRuleToRuleTemplate throws for a
missing required component, per case group: the transcription of its
guard conditions. For column.required this direction never throws. -/
def missingRequiredPolicyToTemplate (t : RuleTemplateV2) : Bool :=
  !t.componentList.isEmpty &&
  match ruleCaseOf t.type with
  | .strPlan => (t.componentList.find? (fun c => c.payload.ctype == CompType.STRING)).isNone
  | .strNaming => (t.componentList.find? (fun c => c.payload.ctype == CompType.STRING)).isNone
  | .strNum => (t.componentList.find? (fun c => c.payload.ctype == CompType.STRING)).isNone
      || (t.componentList.find? (fun c => c.payload.ctype == CompType.NUMBER)).isNone
  | .tmplOnly => (t.componentList.find? (fun c => c.payload.ctype == CompType.TEMPLATE)).isNone
  | .tmplNum => (t.componentList.find? (fun c => c.payload.ctype == CompType.TEMPLATE)).isNone
      || (t.componentList.find? (fun c => c.payload.ctype == CompType.NUMBER)).isNone
  | .boolCase => (t.componentList.find? (fun c => c.payload.ctype == CompType.BOOLEAN)).isNone
  | .colRequired => false
  | .strArr => (t.componentList.find? (fun c => c.payload.ctype == CompType.STRING_ARRAY)).isNone
  | .boolNum => (t.componentList.find? (fun c => c.payload.ctype == CompType.BOOLEAN)).isNone
      || (t.componentList.find? (fun c => c.payload.ctype == CompType.NUMBER)).isNone
  | .numOnly => (t.componentList.find? (fun c => c.payload.ctype == CompType.NUMBER)).isNone
  | .unknown => false

/-- The conditions under which mergeIndividualConfigAsRule throws for a
missing required component: here column.required does require a
STRING_ARRAY component. -/
def missingRequiredTemplateToPolicy (t : RuleTemplateV2) : Bool :=
  !t.componentList.isEmpty &&
  match ruleCaseOf t.type with
  | .strPlan => (t.componentList.find? (fun c => c.payload.ctype == CompType.STRING)).isNone
  | .strNaming => (t.componentList.find? (fun c => c.payload.ctype == CompType.STRING)).isNone
  | .strNum => (t.componentList.find? (fun c => c.payload.ctype == CompType.STRING)).isNone
      || (t.componentList.find? (fun c => c.payload.ctype == CompType.NUMBER)).isNone
  | .tmplOnly => (t.componentList.find? (fun c => c.payload.ctype == CompType.TEMPLATE)).isNone
  | .tmplNum => (t.componentList.find? (fun c => c.payload.ctype == CompType.TEMPLATE)).isNone
      || (t.componentList.find? (fun c => c.payload.ctype == CompType.NUMBER)).isNone
  | .boolCase => (t.componentList.find? (fun c => c.payload.ctype == CompType.BOOLEAN)).isNone
  | .colRequired => (t.componentList.find? (fun c => c.payload.ctype == CompType.STRING_ARRAY)).isNone
  | .strArr => (t.componentList.find? (fun c => c.payload.ctype == CompType.STRING_ARRAY)).isNone
  | .boolNum => (t.componentList.find? (fun c => c.payload.ctype == CompType.BOOLEAN)).isNone
      || (t.componentList.find? (fun c => c.payload.ctype == CompType.NUMBER)).isNone
  | .numOnly => (t.componentList.find? (fun c => c.payload.ctype == CompType.NUMBER)).isNone
  | .unknown => false

/-- The C3 counterexample stored rule: a well formed column.required rule. -/
def missingComponentRule : SchemaPolicyRule :=
  { type := "column.required", level := .WARNING, engine := .MYSQL,
    payload := some { list := .strArr ["id"] }, comment := "" }

/-- The C3 counterexample template: its only component has kind NUMBER, so
the required STRING_ARRAY component is absent. -/
def missingComponentTemplate : RuleTemplateV2 :=
  { type := "column.required", category := "COLUMN", engine := .MYSQL, level := .ERROR,
    componentList := [{ key := "x", payload := { ctype := .NUMBER, default := .num 0 } }] }

/-- C3 counterexample: a required component (STRING_ARRAY for
column.required) is absent from the template, yet the policy to template
conversion surfaces no error and returns a converted result. -/
theorem configuration_error_cex :
    (missingComponentTemplate.componentList.find?
      (fun c => c.payload.ctype == CompType.STRING_ARRAY)) = none ∧
    convertPolicyRuleToRuleTemplate missingComponentRule missingComponentTemplate =
      .ok { missingComponentTemplate with
            engine := .MYSQL,
            level := .WARNING,
            comment := some "",
            componentList :=
              [setValue { key := "x", payload := { ctype := .NUMBER, default := .num 0 } }
                (.strArr ["id"])] } :=
  ⟨rfl, by decide⟩

/-- C3 amended: configuration errors are surfaced to the caller as
explicit errors with no partial result and no Finding, except that (i) the
column.required policy to template conversion reads the first component
without verifying a STRING_ARRAY component is present, so a missing
required component is not surfaced there, and (ii) when the template
componentList is empty both conversion directions return the base result
without consulting the rule type catalog, so an unrecognized rule type is
not surfaced in that case. In detail: an unrecognized rule type with a
nonempty componentList errors in both directions, a missing required
component errors in both directions apart from exception (i), and an
unrecognized rule level or an invalid regular expression format string
aborts Check with an error before any Finding is produced. -/
theorem configuration_errors_surfaced :
    (∀ (pr : SchemaPolicyRule) (t : RuleTemplateV2),
      pr.type = t.type → t.componentList ≠ [] → ruleCaseOf t.type = .unknown →
      convertPolicyRuleToRuleTemplate pr t = .error ("Invalid rule " ++ t.type)) ∧
    (∀ t : RuleTemplateV2,
      t.componentList ≠ [] → ruleCaseOf t.type = .unknown →
      convertRuleTemplateToPolicyRule t = .error ("Invalid rule " ++ t.type)) ∧
    (∀ (pr : SchemaPolicyRule) (t : RuleTemplateV2),
      pr.type = t.type → missingRequiredPolicyToTemplate t = true →
      convertPolicyRuleToRuleTemplate pr t = .error ("Invalid rule " ++ t.type)) ∧
    (∀ t : RuleTemplateV2,
      missingRequiredTemplateToPolicy t = true →
      convertRuleTemplateToPolicyRule t = .error ("Invalid rule " ++ t.type)) ∧
    (∀ (pr : SchemaPolicyRule) (t : RuleTemplateV2),
      pr.type = t.type → t.componentList = [] →
      convertPolicyRuleToRuleTemplate pr t =
        .ok { t with engine := pr.engine, level := pr.level, comment := some pr.comment } ∧
      convertRuleTemplateToPolicyRule t =
        .ok { type := t.type, level := t.level, engine := t.engine, payload := none,
              comment := t.comment.getD "" }) ∧
    (∀ (tr : ParseTree) (rule : SQLReviewRule) (e1 : String),
      NewStatusBySQLReviewRuleLevel rule.level = .error e1 →
      Check (.tree tr) rule = .error e1) ∧
    (∀ (tr : ParseTree) (rule : SQLReviewRule) (level : Status) (e2 : String),
      NewStatusBySQLReviewRuleLevel rule.level = .ok level →
      UnmarshalNamingRulePayloadAsRegexp rule.payload = .error e2 →
      Check (.tree tr) rule = .error e2) := by
  refine ⟨?_, ?_, ?_, ?_, ?_, ?_, ?_⟩
  · intro pr t hty hcl hcase
    simp [convertPolicyRuleToRuleTemplate, hty, hcase, isEmpty_false_of_ne_nil hcl]
  · intro t hcl hcase
    simp [convertRuleTemplateToPolicyRule, mergeIndividualConfigAsRule, hcase,
      isEmpty_false_of_ne_nil hcl]
  · intro pr t hty hmiss
    unfold missingRequiredPolicyToTemplate at hmiss
    rw [Bool.and_eq_true] at hmiss
    obtain ⟨h1, h2⟩ := hmiss
    rw [Bool.not_eq_true'] at h1
    cases hcase : ruleCaseOf t.type with
    | strPlan =>
      rw [hcase] at h2
      simp only [Option.isNone_iff_eq_none] at h2
      simp [convertPolicyRuleToRuleTemplate, hty, hcase, h1, h2]
    | strNaming =>
      rw [hcase] at h2
      simp only [Option.isNone_iff_eq_none] at h2
      simp [convertPolicyRuleToRuleTemplate, hty, hcase, h1, h2]
    | strNum =>
      rw [hcase] at h2
      simp only [Bool.or_eq_true, Option.isNone_iff_eq_none] at h2
      rcases h2 with h2 | h2
      · simp [convertPolicyRuleToRuleTemplate, hty, hcase, h1, h2]
      · cases hsc : t.componentList.find? (fun c => c.payload.ctype == CompType.STRING) with
        | none => simp [convertPolicyRuleToRuleTemplate, hty, hcase, h1, hsc]
        | some sc => simp [convertPolicyRuleToRuleTemplate, hty, hcase, h1, hsc, h2]
    | tmplOnly =>
      rw [hcase] at h2
      simp only [Option.isNone_iff_eq_none] at h2
      simp [convertPolicyRuleToRuleTemplate, hty, hcase, h1, h2]
    | tmplNum =>
      rw [hcase] at h2
      simp only [Bool.or_eq_true, Option.isNone_iff_eq_none] at h2
      rcases h2 with h2 | h2
      · simp [convertPolicyRuleToRuleTemplate, hty, hcase, h1, h2]
      · cases htc : t.componentList.find? (fun c => c.payload.ctype == CompType.TEMPLATE) with
        | none => simp [convertPolicyRuleToRuleTemplate, hty, hcase, h1, htc]
        | some tc => simp [convertPolicyRuleToRuleTemplate, hty, hcase, h1, htc, h2]
    | boolCase =>
      rw [hcase] at h2
      simp only [Option.isNone_iff_eq_none] at h2
      simp [convertPolicyRuleToRuleTemplate, hty, hcase, h1, h2]
    | colRequired => rw [hcase] at h2; simp at h2
    | strArr =>
      rw [hcase] at h2
      simp only [Option.isNone_iff_eq_none] at h2
      simp [convertPolicyRuleToRuleTemplate, hty, hcase, h1, h2]
    | boolNum =>
      rw [hcase] at h2
      simp only [Bool.or_eq_true, Option.isNone_iff_eq_none] at h2
      rcases h2 with h2 | h2
      · simp [convertPolicyRuleToRuleTemplate, hty, hcase, h1, h2]
      · cases hbc : t.componentList.find? (fun c => c.payload.ctype == CompType.BOOLEAN) with
        | none => simp [convertPolicyRuleToRuleTemplate, hty, hcase, h1, hbc]
        | some bc => simp [convertPolicyRuleToRuleTemplate, hty, hcase, h1, hbc, h2]
    | numOnly =>
      rw [hcase] at h2
      simp only [Option.isNone_iff_eq_none] at h2
      simp [convertPolicyRuleToRuleTemplate, hty, hcase, h1, h2]
    | unknown => rw [hcase] at h2; simp at h2
  · intro t hmiss
    unfold missingRequiredTemplateToPolicy at hmiss
    rw [Bool.and_eq_true] at hmiss
    obtain ⟨h1, h2⟩ := hmiss
    rw [Bool.not_eq_true'] at h1
    cases hcase : ruleCaseOf t.type with
    | strPlan =>
      rw [hcase] at h2
      simp only [Option.isNone_iff_eq_none] at h2
      simp [convertRuleTemplateToPolicyRule, mergeIndividualConfigAsRule, hcase, h1, h2]
    | strNaming =>
      rw [hcase] at h2
      simp only [Option.isNone_iff_eq_none] at h2
      simp [convertRuleTemplateToPolicyRule, mergeIndividualConfigAsRule, hcase, h1, h2]
    | strNum =>
      rw [hcase] at h2
      simp only [Bool.or_eq_true, Option.isNone_iff_eq_none] at h2
      rcases h2 with h2 | h2
      · simp [convertRuleTemplateToPolicyRule, mergeIndividualConfigAsRule, hcase, h1, h2]
      · cases hsc : t.componentList.find? (fun c => c.payload.ctype == CompType.STRING) with
        | none =>
          simp [convertRuleTemplateToPolicyRule, mergeIndividualConfigAsRule, hcase, h1, hsc]
        | some sc =>
          simp [convertRuleTemplateToPolicyRule, mergeIndividualConfigAsRule, hcase, h1, hsc, h2]
    | tmplOnly =>
      rw [hcase] at h2
      simp only [Option.isNone_iff_eq_none] at h2
      simp [convertRuleTemplateToPolicyRule, mergeIndividualConfigAsRule, hcase, h1, h2]
    | tmplNum =>
      rw [hcase] at h2
      simp only [Bool.or_eq_true, Option.isNone_iff_eq_none] at h2
      rcases h2 with h2 | h2
      · simp [convertRuleTemplateToPolicyRule, mergeIndividualConfigAsRule, hcase, h1, h2]
      · cases htc : t.componentList.find? (fun c => c.payload.ctype == CompType.TEMPLATE) with
        | none =>
          simp [convertRuleTemplateToPolicyRule, mergeIndividualConfigAsRule, hcase, h1, htc]
        | some tc =>
          simp [convertRuleTemplateToPolicyRule, mergeIndividualConfigAsRule, hcase, h1, htc, h2]
    | boolCase =>
      rw [hcase] at h2
      simp only [Option.isNone_iff_eq_none] at h2
      simp [convertRuleTemplateToPolicyRule, mergeIndividualConfigAsRule, hcase, h1, h2]
    | colRequired =>
      rw [hcase] at h2
      simp only [Option.isNone_iff_eq_none] at h2
      simp [convertRuleTemplateToPolicyRule, mergeIndividualConfigAsRule, hcase, h1, h2]
    | strArr =>
      rw [hcase] at h2
      simp only [Option.isNone_iff_eq_none] at h2
      simp [convertRuleTemplateToPolicyRule, mergeIndividualConfigAsRule, hcase, h1, h2]
    | boolNum =>
      rw [hcase] at h2
      simp only [Bool.or_eq_true, Option.isNone_iff_eq_none] at h2
      rcases h2 with h2 | h2
      · simp [convertRuleTemplateToPolicyRule, mergeIndividualConfigAsRule, hcase, h1, h2]
      · cases hbc : t.componentList.find? (fun c => c.payload.ctype == CompType.BOOLEAN) with
        | none =>
          simp [convertRuleTemplateToPolicyRule, mergeIndividualConfigAsRule, hcase, h1, hbc]
        | some bc =>
          simp [convertRuleTemplateToPolicyRule, mergeIndividualConfigAsRule, hcase, h1, hbc, h2]
    | numOnly =>
      rw [hcase] at h2
      simp only [Option.isNone_iff_eq_none] at h2
      simp [convertRuleTemplateToPolicyRule, mergeIndividualConfigAsRule, hcase, h1, h2]
    | unknown => rw [hcase] at h2; simp at h2
  · intro pr t hty hcl
    constructor
    · simp [convertPolicyRuleToRuleTemplate, hty, hcl]
    · simp [convertRuleTemplateToPolicyRule, hcl]
  · intro tr rule e1 h1
    simp [Check, h1]
  · intro tr rule level e2 hs h2
    simp [Check, hs, h2]

/-- The C3 witness stored rule of an unrecognized type. -/
def unknownTypeRule : SchemaPolicyRule :=
  { type := "bogus.rule", level := .WARNING, engine := .MYSQL, payload := none, comment := "" }

/-- The C3 witness template of an unrecognized type with one component. -/
def unknownTypeTemplate : RuleTemplateV2 :=
  { type := "bogus.rule", category := "X", engine := .MYSQL, level := .ERROR,
    componentList := [{ key := "k", payload := { ctype := .NUMBER, default := .num 1 } }] }

/-- C3 witness: the unrecognized rule type with a nonempty componentList is
surfaced as an explicit error. -/
theorem configuration_errors_surfaced_witness :
    ruleCaseOf unknownTypeTemplate.type = RuleCase.unknown ∧
    convertPolicyRuleToRuleTemplate unknownTypeRule unknownTypeTemplate =
      .error ("Invalid rule " ++ unknownTypeTemplate.type) :=
  ⟨rfl, configuration_errors_surfaced.1 unknownTypeRule unknownTypeTemplate rfl (by decide) rfl⟩

/-- A helper equation: a successful find? means the list is not empty. -/
theorem isEmpty_false_of_find?_eq_some {α : Type} {p : α → Bool} {l : List α} {a : α}
    (h : l.find? p = some a) : l.isEmpty = false := by
  cases l with
  | nil => simp [List.find?] at h
  | cons x xs => rfl

/-- A helper equation: nullish coalescing keeps a defined value. -/
theorem jsCoalesce_of_ne_undef {a b : JsValue} (h : a ≠ .undef) : jsCoalesce a b = a := by
  cases a with
  | undef => exact absurd rfl h
  | num n => rfl
  | str s => rfl
  | bool b => rfl
  | strArr l => rfl

/-- A helper equation: the component produced by a kind directed find has
that kind. -/
theorem ctype_eq_of_find? {l : List RuleConfigComponent} {ty : CompType}
    {c : RuleConfigComponent}
    (h : l.find? (fun c => c.payload.ctype == ty) = some c) : c.payload.ctype = ty := by
  have := List.find?_some h
  simpa using this

/-- Well formedness of a stored rule and template pair, as the amended
round trip property needs it: matching types, the components the rule
type requires present in the template, and a stored payload carrying
exactly the properties the rule type declares, all of them defined. The
group naming.identifier.case is excluded: its stored value is dropped by
the conversion. -/
def wellFormedPair (r : SchemaPolicyRule) (t : RuleTemplateV2) : Bool :=
  r.type == t.type &&
  match r.payload with
  | none => false
  | some p =>
    match ruleCaseOf t.type with
    | .strPlan =>
      (t.componentList.find? (fun c => c.payload.ctype == CompType.STRING)).isSome
        && p == { string := p.string } && p.string != .undef
    | .strNaming =>
      (t.componentList.find? (fun c => c.payload.ctype == CompType.STRING)).isSome
        && p == { format := p.format } && p.format != .undef
    | .strNum =>
      (t.componentList.find? (fun c => c.payload.ctype == CompType.STRING)).isSome
        && (t.componentList.find? (fun c => c.payload.ctype == CompType.NUMBER)).isSome
        && p == { format := p.format, maxLength := p.maxLength }
        && p.format != .undef && p.maxLength != .undef
    | .tmplOnly =>
      (t.componentList.find? (fun c => c.payload.ctype == CompType.TEMPLATE)).isSome
        && p == { format := p.format } && p.format != .undef
    | .tmplNum =>
      (t.componentList.find? (fun c => c.payload.ctype == CompType.TEMPLATE)).isSome
        && (t.componentList.find? (fun c => c.payload.ctype == CompType.NUMBER)).isSome
        && p == { format := p.format, maxLength := p.maxLength }
        && p.format != .undef && p.maxLength != .undef
    | .boolCase => false
    | .colRequired =>
      (match t.componentList with
       | c0 :: _ => c0.payload.ctype == CompType.STRING_ARRAY
       | [] => false)
        && p == { list := p.list } && p.list != .undef
    | .strArr =>
      (t.componentList.find? (fun c => c.payload.ctype == CompType.STRING_ARRAY)).isSome
        && p == { list := p.list } && p.list != .undef
    | .boolNum =>
      (t.componentList.find? (fun c => c.payload.ctype == CompType.BOOLEAN)).isSome
        && (t.componentList.find? (fun c => c.payload.ctype == CompType.NUMBER)).isSome
        && p == { required := p.required, maxLength := p.maxLength }
        && p.required != .undef && p.maxLength != .undef
    | .numOnly =>
      (t.componentList.find? (fun c => c.payload.ctype == CompType.NUMBER)).isSome
        && p == { number := p.number } && p.number != .undef
    | .unknown => false

/-- Round trip identity for the strPlan group, under well formedness. -/
theorem roundTrip_strPlan (r : SchemaPolicyRule) (t : RuleTemplateV2)
    (hcase : ruleCaseOf t.type = .strPlan)
    (p : PayloadObject)
    (sc : RuleConfigComponent)
    (hsc : t.componentList.find? (fun c => c.payload.ctype == CompType.STRING) = some sc)
    (hpe : p = { string := p.string })
    (hd0 : p.string ≠ .undef)
    (hty : r.type = t.type) (hp : r.payload = some p) :
    roundTrip r t = .ok r := by
  obtain ⟨rty, rlv, ren, rpl, rc⟩ := r
  simp only at hty hp
  subst hty
  subst hp
  have hscT : sc.payload.ctype = CompType.STRING := ctype_eq_of_find? hsc
  have hemp := isEmpty_false_of_find?_eq_some hsc
  simp [roundTrip, convertPolicyRuleToRuleTemplate, convertRuleTemplateToPolicyRule,
    mergeIndividualConfigAsRule, hcase, hemp, setValue, List.find?, hsc, hscT, jsCoalesce_of_ne_undef hd0]
  rw [← hpe]

/-- Round trip identity for the strNaming group, under well formedness. -/
theorem roundTrip_strNaming (r : SchemaPolicyRule) (t : RuleTemplateV2)
    (hcase : ruleCaseOf t.type = .strNaming)
    (p : PayloadObject)
    (sc : RuleConfigComponent)
    (hsc : t.componentList.find? (fun c => c.payload.ctype == CompType.STRING) = some sc)
    (hpe : p = { format := p.format })
    (hd0 : p.format ≠ .undef)
    (hty : r.type = t.type) (hp : r.payload = some p) :
    roundTrip r t = .ok r := by
  obtain ⟨rty, rlv, ren, rpl, rc⟩ := r
  simp only at hty hp
  subst hty
  subst hp
  have hscT : sc.payload.ctype = CompType.STRING := ctype_eq_of_find? hsc
  have hemp := isEmpty_false_of_find?_eq_some hsc
  simp [roundTrip, convertPolicyRuleToRuleTemplate, convertRuleTemplateToPolicyRule,
    mergeIndividualConfigAsRule, hcase, hemp, setValue, List.find?, hsc, hscT, jsCoalesce_of_ne_undef hd0]
  rw [← hpe]

/-- Round trip identity for the strNum group, under well formedness. -/
theorem roundTrip_strNum (r : SchemaPolicyRule) (t : RuleTemplateV2)
    (hcase : ruleCaseOf t.type = .strNum)
    (p : PayloadObject)
    (sc : RuleConfigComponent)
    (hsc : t.componentList.find? (fun c => c.payload.ctype == CompType.STRING) = some sc)
    (nc : RuleConfigComponent)
    (hnc : t.componentList.find? (fun c => c.payload.ctype == CompType.NUMBER) = some nc)
    (hpe : p = { format := p.format, maxLength := p.maxLength })
    (hd0 : p.format ≠ .undef)
    (hd1 : p.maxLength ≠ .undef)
    (hty : r.type = t.type) (hp : r.payload = some p) :
    roundTrip r t = .ok r := by
  obtain ⟨rty, rlv, ren, rpl, rc⟩ := r
  simp only at hty hp
  subst hty
  subst hp
  have hscT : sc.payload.ctype = CompType.STRING := ctype_eq_of_find? hsc
  have hncT : nc.payload.ctype = CompType.NUMBER := ctype_eq_of_find? hnc
  have hemp := isEmpty_false_of_find?_eq_some hsc
  have hb : (CompType.STRING == CompType.NUMBER) = false := rfl
  simp [roundTrip, convertPolicyRuleToRuleTemplate, convertRuleTemplateToPolicyRule,
    mergeIndividualConfigAsRule, hcase, hemp, setValue, List.find?, hsc, hnc, hscT, hncT, hb, jsCoalesce_of_ne_undef hd0, jsCoalesce_of_ne_undef hd1]
  rw [← hpe]

/-- Round trip identity for the tmplOnly group, under well formedness. -/
theorem roundTrip_tmplOnly (r : SchemaPolicyRule) (t : RuleTemplateV2)
    (hcase : ruleCaseOf t.type = .tmplOnly)
    (p : PayloadObject)
    (tc : RuleConfigComponent)
    (htc : t.componentList.find? (fun c => c.payload.ctype == CompType.TEMPLATE) = some tc)
    (hpe : p = { format := p.format })
    (hd0 : p.format ≠ .undef)
    (hty : r.type = t.type) (hp : r.payload = some p) :
    roundTrip r t = .ok r := by
  obtain ⟨rty, rlv, ren, rpl, rc⟩ := r
  simp only at hty hp
  subst hty
  subst hp
  have htcT : tc.payload.ctype = CompType.TEMPLATE := ctype_eq_of_find? htc
  have hemp := isEmpty_false_of_find?_eq_some htc
  simp [roundTrip, convertPolicyRuleToRuleTemplate, convertRuleTemplateToPolicyRule,
    mergeIndividualConfigAsRule, hcase, hemp, setValue, List.find?, htc, htcT, jsCoalesce_of_ne_undef hd0]
  rw [← hpe]

/-- Round trip identity for the tmplNum group, under well formedness. -/
theorem roundTrip_tmplNum (r : SchemaPolicyRule) (t : RuleTemplateV2)
    (hcase : ruleCaseOf t.type = .tmplNum)
    (p : PayloadObject)
    (tc : RuleConfigComponent)
    (htc : t.componentList.find? (fun c => c.payload.ctype == CompType.TEMPLATE) = some tc)
    (nc : RuleConfigComponent)
    (hnc : t.componentList.find? (fun c => c.payload.ctype == CompType.NUMBER) = some nc)
    (hpe : p = { format := p.format, maxLength := p.maxLength })
    (hd0 : p.format ≠ .undef)
    (hd1 : p.maxLength ≠ .undef)
    (hty : r.type = t.type) (hp : r.payload = some p) :
    roundTrip r t = .ok r := by
  obtain ⟨rty, rlv, ren, rpl, rc⟩ := r
  simp only at hty hp
  subst hty
  subst hp
  have htcT : tc.payload.ctype = CompType.TEMPLATE := ctype_eq_of_find? htc
  have hncT : nc.payload.ctype = CompType.NUMBER := ctype_eq_of_find? hnc
  have hemp := isEmpty_false_of_find?_eq_some htc
  have hb : (CompType.TEMPLATE == CompType.NUMBER) = false := rfl
  simp [roundTrip, convertPolicyRuleToRuleTemplate, convertRuleTemplateToPolicyRule,
    mergeIndividualConfigAsRule, hcase, hemp, setValue, List.find?, htc, hnc, htcT, hncT, hb, jsCoalesce_of_ne_undef hd0, jsCoalesce_of_ne_undef hd1]
  rw [← hpe]

/-- Round trip identity for the strArr group, under well formedness. -/
theorem roundTrip_strArr (r : SchemaPolicyRule) (t : RuleTemplateV2)
    (hcase : ruleCaseOf t.type = .strArr)
    (p : PayloadObject)
    (sac : RuleConfigComponent)
    (hsac : t.componentList.find? (fun c => c.payload.ctype == CompType.STRING_ARRAY) = some sac)
    (hpe : p = { list := p.list })
    (hd0 : p.list ≠ .undef)
    (hty : r.type = t.type) (hp : r.payload = some p) :
    roundTrip r t = .ok r := by
  obtain ⟨rty, rlv, ren, rpl, rc⟩ := r
  simp only at hty hp
  subst hty
  subst hp
  have hsacT : sac.payload.ctype = CompType.STRING_ARRAY := ctype_eq_of_find? hsac
  have hemp := isEmpty_false_of_find?_eq_some hsac
  simp [roundTrip, convertPolicyRuleToRuleTemplate, convertRuleTemplateToPolicyRule,
    mergeIndividualConfigAsRule, hcase, hemp, setValue, List.find?, hsac, hsacT, jsCoalesce_of_ne_undef hd0]
  rw [← hpe]

/-- Round trip identity for the boolNum group, under well formedness. -/
theorem roundTrip_boolNum (r : SchemaPolicyRule) (t : RuleTemplateV2)
    (hcase : ruleCaseOf t.type = .boolNum)
    (p : PayloadObject)
    (bc : RuleConfigComponent)
    (hbc : t.componentList.find? (fun c => c.payload.ctype == CompType.BOOLEAN) = some bc)
    (nc : RuleConfigComponent)
    (hnc : t.componentList.find? (fun c => c.payload.ctype == CompType.NUMBER) = some nc)
    (hpe : p = { required := p.required, maxLength := p.maxLength })
    (hd0 : p.required ≠ .undef)
    (hd1 : p.maxLength ≠ .undef)
    (hty : r.type = t.type) (hp : r.payload = some p) :
    roundTrip r t = .ok r := by
  obtain ⟨rty, rlv, ren, rpl, rc⟩ := r
  simp only at hty hp
  subst hty
  subst hp
  have hbcT : bc.payload.ctype = CompType.BOOLEAN := ctype_eq_of_find? hbc
  have hncT : nc.payload.ctype = CompType.NUMBER := ctype_eq_of_find? hnc
  have hemp := isEmpty_false_of_find?_eq_some hbc
  have hb : (CompType.BOOLEAN == CompType.NUMBER) = false := rfl
  simp [roundTrip, convertPolicyRuleToRuleTemplate, convertRuleTemplateToPolicyRule,
    mergeIndividualConfigAsRule, hcase, hemp, setValue, List.find?, hbc, hnc, hbcT, hncT, hb, jsCoalesce_of_ne_undef hd0, jsCoalesce_of_ne_undef hd1]
  rw [← hpe]

/-- Round trip identity for the numOnly group, under well formedness. -/
theorem roundTrip_numOnly (r : SchemaPolicyRule) (t : RuleTemplateV2)
    (hcase : ruleCaseOf t.type = .numOnly)
    (p : PayloadObject)
    (nc : RuleConfigComponent)
    (hnc : t.componentList.find? (fun c => c.payload.ctype == CompType.NUMBER) = some nc)
    (hpe : p = { number := p.number })
    (hd0 : p.number ≠ .undef)
    (hty : r.type = t.type) (hp : r.payload = some p) :
    roundTrip r t = .ok r := by
  obtain ⟨rty, rlv, ren, rpl, rc⟩ := r
  simp only at hty hp
  subst hty
  subst hp
  have hncT : nc.payload.ctype = CompType.NUMBER := ctype_eq_of_find? hnc
  have hemp := isEmpty_false_of_find?_eq_some hnc
  simp [roundTrip, convertPolicyRuleToRuleTemplate, convertRuleTemplateToPolicyRule,
    mergeIndividualConfigAsRule, hcase, hemp, setValue, List.find?, hnc, hncT, jsCoalesce_of_ne_undef hd0]
  rw [← hpe]

/-- Round trip identity for column.required, under well formedness (the
first component kind really STRING_ARRAY and the deprecated columnList key
absent). -/
theorem roundTrip_colRequired (r : SchemaPolicyRule) (t : RuleTemplateV2)
    (hcase : ruleCaseOf t.type = .colRequired)
    (p : PayloadObject) (c0 : RuleConfigComponent) (rest : List RuleConfigComponent)
    (hcl : t.componentList = c0 :: rest)
    (hc0T : c0.payload.ctype = CompType.STRING_ARRAY)
    (hpe : p = { list := p.list })
    (hl : p.list ≠ .undef)
    (hty : r.type = t.type) (hp : r.payload = some p) :
    roundTrip r t = .ok r := by
  obtain ⟨rty, rlv, ren, rpl, rc⟩ := r
  simp only at hty hp
  subst hty
  subst hp
  have hcol : p.columnList = .undef := by rw [hpe]
  have hemp : t.componentList.isEmpty = false := by rw [hcl]; rfl
  simp [roundTrip, convertPolicyRuleToRuleTemplate, convertRuleTemplateToPolicyRule,
    mergeIndividualConfigAsRule, hcase, hemp, hcl, hcol, jsFalsy, setValue, List.find?, hc0T,
    jsCoalesce_of_ne_undef hl]
  rw [← hpe]

/-- Round trip identity for a template with no components and a stored
rule with no payload. -/
theorem roundTrip_emptyComponents (r : SchemaPolicyRule) (t : RuleTemplateV2)
    (hty : r.type = t.type) (hcl : t.componentList = [])
    (hp : r.payload = none) :
    roundTrip r t = .ok r := by
  obtain ⟨rty, rlv, ren, rpl, rc⟩ := r
  simp only at hty hp
  subst hty
  subst hp
  simp [roundTrip, convertPolicyRuleToRuleTemplate, convertRuleTemplateToPolicyRule, hcl]

/-- C2 corrected round trip: for every rule type group handled by the
conversion switch except naming.identifier.case, given a template carrying
the components the group requires and a stored rule whose payload has
exactly the declared properties, all defined, converting the stored rule
to a template and back is the identity; a rule type with no components
round trips when the stored rule carries no payload. The group
naming.identifier.case is excluded: the conversion drops its stored value
(see the counterexample). -/
theorem conversion_round_trip :
    (∀ (r : SchemaPolicyRule) (t : RuleTemplateV2),
      wellFormedPair r t = true → roundTrip r t = .ok r) ∧
    (∀ (r : SchemaPolicyRule) (t : RuleTemplateV2),
      r.type = t.type → t.componentList = [] → r.payload = none →
      roundTrip r t = .ok r) := by
  constructor
  · intro r t hwf
    unfold wellFormedPair at hwf
    rw [Bool.and_eq_true] at hwf
    obtain ⟨htyb, hwf⟩ := hwf
    rw [beq_iff_eq] at htyb
    cases hp : r.payload with
    | none => rw [hp] at hwf; simp at hwf
    | some p =>
      rw [hp] at hwf
      cases hcase : ruleCaseOf t.type with
      | strPlan =>
        rw [hcase] at hwf
        simp only [Bool.and_eq_true, Option.isSome_iff_exists, beq_iff_eq, bne_iff_ne,
          ne_eq] at hwf
        obtain ⟨⟨⟨sc, hsc⟩, hpe⟩, hd0⟩ := hwf
        exact roundTrip_strPlan r t hcase p sc hsc hpe hd0 htyb hp
      | strNaming =>
        rw [hcase] at hwf
        simp only [Bool.and_eq_true, Option.isSome_iff_exists, beq_iff_eq, bne_iff_ne,
          ne_eq] at hwf
        obtain ⟨⟨⟨sc, hsc⟩, hpe⟩, hd0⟩ := hwf
        exact roundTrip_strNaming r t hcase p sc hsc hpe hd0 htyb hp
      | strNum =>
        rw [hcase] at hwf
        simp only [Bool.and_eq_true, Option.isSome_iff_exists, beq_iff_eq, bne_iff_ne,
          ne_eq] at hwf
        obtain ⟨⟨⟨⟨⟨sc, hsc⟩, ⟨nc, hnc⟩⟩, hpe⟩, hd0⟩, hd1⟩ := hwf
        exact roundTrip_strNum r t hcase p sc hsc nc hnc hpe hd0 hd1 htyb hp
      | tmplOnly =>
        rw [hcase] at hwf
        simp only [Bool.and_eq_true, Option.isSome_iff_exists, beq_iff_eq, bne_iff_ne,
          ne_eq] at hwf
        obtain ⟨⟨⟨tc, htc⟩, hpe⟩, hd0⟩ := hwf
        exact roundTrip_tmplOnly r t hcase p tc htc hpe hd0 htyb hp
      | tmplNum =>
        rw [hcase] at hwf
        simp only [Bool.and_eq_true, Option.isSome_iff_exists, beq_iff_eq, bne_iff_ne,
          ne_eq] at hwf
        obtain ⟨⟨⟨⟨⟨tc, htc⟩, ⟨nc, hnc⟩⟩, hpe⟩, hd0⟩, hd1⟩ := hwf
        exact roundTrip_tmplNum r t hcase p tc htc nc hnc hpe hd0 hd1 htyb hp
      | strArr =>
        rw [hcase] at hwf
        simp only [Bool.and_eq_true, Option.isSome_iff_exists, beq_iff_eq, bne_iff_ne,
          ne_eq] at hwf
        obtain ⟨⟨⟨sac, hsac⟩, hpe⟩, hd0⟩ := hwf
        exact roundTrip_strArr r t hcase p sac hsac hpe hd0 htyb hp
      | boolNum =>
        rw [hcase] at hwf
        simp only [Bool.and_eq_true, Option.isSome_iff_exists, beq_iff_eq, bne_iff_ne,
          ne_eq] at hwf
        obtain ⟨⟨⟨⟨⟨bc, hbc⟩, ⟨nc, hnc⟩⟩, hpe⟩, hd0⟩, hd1⟩ := hwf
        exact roundTrip_boolNum r t hcase p bc hbc nc hnc hpe hd0 hd1 htyb hp
      | numOnly =>
        rw [hcase] at hwf
        simp only [Bool.and_eq_true, Option.isSome_iff_exists, beq_iff_eq, bne_iff_ne,
          ne_eq] at hwf
        obtain ⟨⟨⟨nc, hnc⟩, hpe⟩, hd0⟩ := hwf
        exact roundTrip_numOnly r t hcase p nc hnc hpe hd0 htyb hp
      | boolCase => rw [hcase] at hwf; simp at hwf
      | unknown => rw [hcase] at hwf; simp at hwf
      | colRequired =>
        rw [hcase] at hwf
        cases hcl : t.componentList with
        | nil => rw [hcl] at hwf; simp at hwf
        | cons c0 rest =>
          rw [hcl] at hwf
          simp only [Bool.and_eq_true, beq_iff_eq, bne_iff_ne, ne_eq] at hwf
          obtain ⟨⟨hc0T, hpe⟩, hl⟩ := hwf
          exact roundTrip_colRequired r t hcase p c0 rest hcl hc0T hpe hl htyb hp
  · exact fun r t hty hcl hp => roundTrip_emptyComponents r t hty hcl hp

/-- The stored naming.identifier.case rule of the C2 counterexample, with
a defined upper value. -/
def idCaseRule : SchemaPolicyRule :=
  { type := "naming.identifier.case", level := .WARNING, engine := .MYSQL,
    payload := some { upper := .bool true }, comment := "" }

/-- The matching naming.identifier.case template, holding the required
BOOLEAN component with default false and no current value. -/
def idCaseTemplate : RuleTemplateV2 :=
  { type := "naming.identifier.case", category := "NAMING", engine := .MYSQL, level := .ERROR,
    componentList :=
      [{ key := "upper", payload := { ctype := .BOOLEAN, default := .bool false } }] }

/-- C2 counterexample: for the catalog rule type naming.identifier.case
with a well formed stored rule and its matching template, the round trip
is not the identity: the stored upper value true is dropped and the
template default false comes back. -/
theorem conversion_round_trip_cex :
    roundTrip idCaseRule idCaseTemplate =
      .ok { idCaseRule with payload := some { upper := .bool false } } ∧
    roundTrip idCaseRule idCaseTemplate ≠ .ok idCaseRule :=
  ⟨by decide, by decide⟩

/-- The stored naming.table rule of the C2 witness. -/
def wfNamingRule : SchemaPolicyRule :=
  { type := "naming.table", level := .WARNING, engine := .MSSQL,
    payload := some { format := .str "^[a-z]+$", maxLength := .num 32 }, comment := "c" }

/-- The matching naming.table template of the C2 witness. -/
def wfNamingTemplate : RuleTemplateV2 :=
  { type := "naming.table", category := "NAMING", engine := .MSSQL, level := .ERROR,
    componentList :=
      [{ key := "format", payload := { ctype := .STRING, default := .str "x" } },
       { key := "maxLength", payload := { ctype := .NUMBER, default := .num 64 } }] }

/-- C2 witness: a concrete well formed naming.table pair round trips to
the original stored rule. -/
theorem conversion_round_trip_witness :
    wellFormedPair wfNamingRule wfNamingTemplate = true ∧
    roundTrip wfNamingRule wfNamingTemplate = .ok wfNamingRule :=
  ⟨by decide, conversion_round_trip.1 wfNamingRule wfNamingTemplate (by decide)⟩
